import Mathlib

/-!
Verification development for the contract-ai-platform repository's
lead distress-scoring and tiering pipeline:
  * `examples/real-estate/zillow_visual_scraper.py` — distress-signal
    extraction and investment analysis;
  * `examples/real-estate/secondary_market_eve.py` — lead packaging,
    marketplace and purchase flow.

Python floats are embedded as `ℚ`, Python ints as `ℤ` (or `ℕ` where the
value is a count/timestamp), optional fields as `Option`, dictionaries
as insertion-ordered association lists.  All definitions are executable.
-/

namespace ContractAI

/-! ### String helpers (Python `str.lower` and the `in` substring test) -/

/-- ASCII lowercase of one character, as Python's `str.lower` acts on the
ASCII range (all strings in this code base are ASCII). -/
def lowerChar (c : Char) : Char :=
  if 65 ≤ c.toNat ∧ c.toNat ≤ 90 then Char.ofNat (c.toNat + 32) else c

/-- Lowercase an entire string. -/
def lowerStr (s : String) : String := ⟨s.data.map lowerChar⟩

/-- Python's `needle in hay` substring test, made case-insensitive by
lowering both sides first (the source always lowers the haystack and uses
lowercase needles; lowering a lowercase needle is the identity). -/
def strContainsCI (hay needle : String) : Bool :=
  decide ((lowerStr needle).data <:+: (lowerStr hay).data)

/-! ### Data model of `zillow_visual_scraper.py` -/

/-- A price-history entry is a JSON object (`Dict[str, Any]`); we model it
as an ordered list of key/value pairs with string values, which is what the
GPT scrape produces. -/
def HistEntry : Type := List (String × String)

/-- Python's `str(...)` rendering of a dict with string values:
`{'key': 'value', ...}`. -/
def pyStrEntry (e : HistEntry) : String :=
  "\x7b" ++ String.intercalate ", "
    ((e : List (String × String)).map (fun kv => "'" ++ kv.1 ++ "': '" ++ kv.2 ++ "'"))
    ++ "\x7d"

/-- The `"description"` field of a price-history entry, if present. -/
def descriptionOf (e : HistEntry) : Option String :=
  ((e : List (String × String)).find? (fun kv => kv.1 = "description")).map (fun kv => kv.2)

/-- `ZillowProperty` (pydantic model, `zillow_visual_scraper.py` lines 63-80).
Fields never read by the analysed code paths (lot size, year built, listing
date, rent zestimate) are omitted. -/
structure ZillowProperty where
  zpid : String
  address : String
  price : ℤ
  bedrooms : ℤ
  bathrooms : ℚ
  sqft : ℤ
  property_type : String
  days_on_market : ℤ
  price_history : List HistEntry
  photos : List String
  description : String
  neighborhood : String
  zestimate : Option ℤ

/-- The visual-analysis dictionary as read by `detect_distress_signals`:
`visual.get("overall_visual_score", 0)` and
`visual.get("geometric_summary", {}).get("geometric_complexity", 0)`;
a missing key reads as the default `0`, modelled by `Option.getD 0`. -/
structure VisualAnalysis where
  overall_visual_score : Option ℚ
  geometric_complexity : Option ℚ

/-- `DistressSignal` (pydantic model, lines 93-100). -/
structure DistressSignal where
  price_below_market : Bool
  high_days_on_market : Bool
  price_reduction : Bool
  visual_distress : Bool
  neighborhood_decline : Bool
  geometric_anomaly : Bool
  overall_score : ℚ
deriving DecidableEq

/-! Each boolean of `detect_distress_signals` (lines 261-294), one
definition per source line so they can be reasoned about separately. -/

/-- Line 264-266: `bool(property.zestimate and property.price < property.zestimate * 0.85)`.
A `None` or `0` zestimate is falsy, short-circuiting to `False`. -/
def price_below_market (p : ZillowProperty) : Bool :=
  match p.zestimate with
  | none => false
  | some z => decide (z ≠ 0) && decide ((p.price : ℚ) < (z : ℚ) * (17/20))

/-- Line 267: `property.days_on_market > 60`. -/
def high_days_on_market (p : ZillowProperty) : Bool :=
  decide (p.days_on_market > 60)

/-- Line 268: `any("reduction" in str(change).lower() for change in property.price_history)`.
Note the test is over `str(change)` — the rendering of the whole entry —
not over any particular field. -/
def price_reduction (p : ZillowProperty) : Bool :=
  p.price_history.any (fun change => strContainsCI (pyStrEntry change) "reduction")

/-- Line 269: `visual.get("overall_visual_score", 0) > 50`. -/
def visual_distress (v : VisualAnalysis) : Bool :=
  decide (v.overall_visual_score.getD 0 > 50)

/-- Lines 270-273: any of the keywords occurs in the lowered description. -/
def neighborhood_decline (p : ZillowProperty) : Bool :=
  ["foreclosure", "as-is", "distress"].any (fun kw => strContainsCI p.description kw)

/-- Line 274: `visual.get("geometric_summary", {}).get("geometric_complexity", 0) > 100`. -/
def geometric_anomaly (v : VisualAnalysis) : Bool :=
  decide (v.geometric_complexity.getD 0 > 100)

/-- `detect_distress_signals` (lines 261-294): the six booleans and
`overall_score = (sum(signals) / len(signals)) * 100` where `signals` is the
list of the six booleans (`sum` counts the `True`s, `len` is 6). -/
def detect_distress_signals (p : ZillowProperty) (visual : VisualAnalysis) :
    DistressSignal :=
  let signals : List Bool :=
    [price_below_market p, high_days_on_market p, price_reduction p,
     visual_distress visual, neighborhood_decline p, geometric_anomaly visual]
  { price_below_market := price_below_market p
    high_days_on_market := high_days_on_market p
    price_reduction := price_reduction p
    visual_distress := visual_distress visual
    neighborhood_decline := neighborhood_decline p
    geometric_anomaly := geometric_anomaly visual
    overall_score := ((signals.countP (fun b => b = true) : ℚ) / (signals.length : ℚ)) * 100 }

/-- Spec-worded variant of the price-reduction signal, for comparison with
the source's `price_reduction`: "some entry of the price-history sequence has
a *description* containing \"reduction\" (case-insensitive)". -/
def spec_price_reduction (p : ZillowProperty) : Bool :=
  p.price_history.any (fun change =>
    match descriptionOf change with
    | some d => strContainsCI d "reduction"
    | none => false)

/-- Result record of `generate_investment_analysis` (lines 296-321). -/
structure InvestmentAnalysis where
  market_value : ℚ
  current_price : ℤ
  estimated_repairs : ℚ
  potential_profit : ℚ
  roi_percentage : ℚ
  investment_grade : String
  risk_factors : List String
deriving DecidableEq

/-- Python's `property.zestimate or property.price` (line 299): the zestimate
when it is present and nonzero (truthy), else the price. -/
def market_value (p : ZillowProperty) : ℚ :=
  match p.zestimate with
  | some z => if z = 0 then (p.price : ℚ) else (z : ℚ)
  | none => (p.price : ℚ)

/-- `generate_investment_analysis` (lines 296-321). `roi` is
`(potential_profit / total_investment) * 100 if total_investment else 0`:
the division is guarded by the truthiness (non-zeroness) of
`total_investment`. -/
def generate_investment_analysis (p : ZillowProperty) (distress : DistressSignal) :
    InvestmentAnalysis :=
  let mv := market_value p
  let repairs : ℚ := if distress.visual_distress then mv * (15/100) else 0
  let total_investment : ℚ := (p.price : ℚ) + repairs
  let potential_profit : ℚ := mv - total_investment
  let roi : ℚ := if total_investment ≠ 0 then (potential_profit / total_investment) * 100 else 0
  { market_value := mv
    current_price := p.price
    estimated_repairs := repairs
    potential_profit := potential_profit
    roi_percentage := roi
    investment_grade := if roi > 25 then "A" else if roi > 15 then "B" else "C"
    risk_factors :=
      (if distress.high_days_on_market then ["Market resistance"] else []) ++
      (if distress.visual_distress then ["Repair uncertainty"] else []) ++
      (if distress.neighborhood_decline then ["Area decline"] else []) }

/-! ### Data model of `secondary_market_eve.py` -/

/-- `LeadTier` (lines 28-32). -/
inductive LeadTier where
  | bronze
  | silver
  | gold
  | platinum
deriving DecidableEq

/-- `PropertyIntelligence` (`zillow_visual_scraper.py` lines 103-109), with
the two `Dict[str, Any]` members restricted to the keys the analysed code
reads: `geometric_analysis` to `overall_visual_score` (and
`geometric_complexity`), `investment_opportunity` to `roi_percentage`
(read with `.get("roi_percentage", 0)`, hence `Option`). -/
structure PropertyIntelligence where
  property : ZillowProperty
  distress_signals : DistressSignal
  geometric_analysis : VisualAnalysis
  roi_percentage : Option ℚ
  contract_recommendation : String

/-- `LeadPackage` (lines 51-62).  Timestamps are seconds as `ℕ`. -/
structure LeadPackage where
  package_id : String
  property_intelligence : PropertyIntelligence
  lead_tier : LeadTier
  price : ℚ
  geometric_analysis_included : Bool
  contract_template_included : Bool
  market_comps_included : Bool
  roi_projection : Option ℚ
  exclusive_period_hours : ℕ
  created_at : ℕ
  expires_at : ℕ

/-- `MarketplaceListing` (lines 65-76).  Presentation-only string fields
(title, description text, formatted price range, preview dictionary) are
derived for display only and never read back; they are omitted. -/
structure MarketplaceListing where
  listing_id : String
  location : String
  distress_score : ℚ
  lead_tier : LeadTier
  package_price : ℚ
  full_package_id : String

/-- `InvestorProfile` (lines 35-48), restricted to the fields the matching
and purchase paths read. -/
structure InvestorProfile where
  investor_id : String
  preferred_markets : List String
  price_range_min : ℤ
  price_range_max : ℤ
  property_types : List String

/-! Python `dict`s keyed by strings, modelled as insertion-ordered
association lists with the overwrite-in-place semantics of
`d[k] = v`. -/

/-- `d[k] = v`: replace in place when the key exists, else append. -/
def dinsert {α : Type} (k : String) (v : α) (l : List (String × α)) :
    List (String × α) :=
  if l.any (fun e => e.1 = k) then
    l.map (fun e => if e.1 = k then (k, v) else e)
  else l ++ [(k, v)]

/-- `d.get(k)` / `k in d` lookup. -/
def dlookup {α : Type} (k : String) (l : List (String × α)) : Option α :=
  (l.find? (fun e => e.1 = k)).map (fun e => e.2)

/-- The mutable state of a `SecondaryMarketEve` instance (lines 88-99):
the three dictionaries plus the `revenue_metrics` entries, each a float. -/
structure EveState where
  investors : List (String × InvestorProfile)
  lead_packages : List (String × LeadPackage)
  marketplace_listings : List (String × MarketplaceListing)
  total_sales : ℚ
  packages_sold : ℚ
  avg_package_price : ℚ
  conversion_rate : ℚ
  monthly_recurring : ℚ

/-- Freshly constructed state (`__init__`, lines 89-100). -/
def initState : EveState :=
  { investors := []
    lead_packages := []
    marketplace_listings := []
    total_sales := 0
    packages_sold := 0
    avg_package_price := 0
    conversion_rate := 0
    monthly_recurring := 0 }

/-- The `base_prices` table of `_initialize_pricing` (lines 102-113). -/
def base_price : LeadTier → ℚ
  | .bronze => 50
  | .silver => 150
  | .gold => 300
  | .platinum => 500

/-- The platinum branch condition of `_classify_lead_tier` (line 154). -/
def platinum_rule (intel : PropertyIntelligence) : Bool :=
  decide (intel.distress_signals.overall_score > 70) &&
  decide (intel.roi_percentage.getD 0 > 20) &&
  decide (intel.contract_recommendation = "IMMEDIATE_OFFER")

/-- The gold branch condition of `_classify_lead_tier` (line 156):
`distress > 60 and roi > 15 and geom_score > 0`. -/
def gold_rule (intel : PropertyIntelligence) : Bool :=
  decide (intel.distress_signals.overall_score > 60) &&
  decide (intel.roi_percentage.getD 0 > 15) &&
  decide (intel.geometric_analysis.overall_visual_score.getD 0 > 0)

/-- The silver branch condition of `_classify_lead_tier` (line 158):
`distress > 50 and roi > 12 and has_photos`. -/
def silver_rule (intel : PropertyIntelligence) : Bool :=
  decide (intel.distress_signals.overall_score > 50) &&
  decide (intel.roi_percentage.getD 0 > 12) &&
  !intel.property.photos.isEmpty

/-- `_classify_lead_tier` (lines 148-160): branch conditions evaluated
top-down, first match wins, `BRONZE` as the default. -/
def classify_lead_tier (intel : PropertyIntelligence) : LeadTier :=
  if platinum_rule intel then .platinum
  else if gold_rule intel then .gold
  else if silver_rule intel then .silver
  else .bronze

/-- `_calculate_market_multiplier` (lines 162-166). -/
def calculate_market_multiplier (neighborhood : String) : ℚ :=
  if ["austin", "dallas", "houston", "atlanta", "phoenix"].any
      (fun city => strContainsCI neighborhood city) then 3/2 else 1

/-- The listing built by `_create_marketplace_listing` (lines 168-192);
its key in `marketplace_listings` is `listing_id = "LIST_" + package_id`
and its back-reference is `full_package_id = package_id`. -/
def create_marketplace_listing (package : LeadPackage) : MarketplaceListing :=
  { listing_id := "LIST_" ++ package.package_id
    location := package.property_intelligence.property.neighborhood
    distress_score := package.property_intelligence.distress_signals.overall_score
    lead_tier := package.lead_tier
    package_price := package.price
    full_package_id := package.package_id }

/-- `process_overflow_lead` (lines 115-146).  `now` is the value of
`datetime.now().timestamp()` in whole seconds.  Returns the optional
package together with the state after the side effects (registering the
package and its marketplace listing; `_match_with_investors` only emits
notifications and mutates no state). -/
def process_overflow_lead (st : EveState) (intel : PropertyIntelligence)
    (now : ℕ) : Option LeadPackage × EveState :=
  let distress_score := intel.distress_signals.overall_score
  let roi_potential := intel.roi_percentage.getD 0
  if distress_score < 40 ∨ roi_potential < 10 then (none, st)
  else
    let tier := classify_lead_tier intel
    let final_price := base_price tier *
      calculate_market_multiplier intel.property.neighborhood
    let pid := "PKG_" ++ intel.property.zpid ++ "_" ++ toString now
    let package : LeadPackage :=
      { package_id := pid
        property_intelligence := intel
        lead_tier := tier
        price := final_price
        geometric_analysis_included := tier = .gold ∨ tier = .platinum
        contract_template_included := tier = .platinum
        market_comps_included := tier ≠ .bronze
        roi_projection := intel.roi_percentage
        exclusive_period_hours := if tier = .platinum then 24 else 12
        created_at := now
        expires_at := now + 7 * 86400 }
    let listing := create_marketplace_listing package
    (some package,
      { st with
        lead_packages := dinsert pid package st.lead_packages
        marketplace_listings :=
          dinsert listing.listing_id listing st.marketplace_listings })

/-- Response of the `POST /process-overflow-lead` endpoint (lines 287-297). -/
structure OverflowResponse where
  package_created : Bool
  reason : Option String
  package_id : Option String
  lead_tier : Option LeadTier
  price : Option ℚ

/-- The `POST /process-overflow-lead` endpoint (lines 287-297): a rejected
lead is reported as a normal response with `package_created = false` and a
reason string, not as an HTTP error. -/
def process_overflow_lead_endpoint (st : EveState)
    (payload : PropertyIntelligence) (now : ℕ) : OverflowResponse × EveState :=
  match process_overflow_lead st payload now with
  | (none, st') =>
      ({ package_created := false
         reason := some "Lead quality below threshold"
         package_id := none, lead_tier := none, price := none }, st')
  | (some package, st') =>
      ({ package_created := true
         reason := none
         package_id := some package.package_id
         lead_tier := some package.lead_tier
         price := some package.price }, st')

/-- `register_investor` endpoint (lines 277-284): store the profile under
its id. -/
def register_investor (st : EveState) (investor : InvestorProfile) : EveState :=
  { st with investors := dinsert investor.investor_id investor st.investors }

/-- `_remove_from_marketplace` (lines 267-271): delete the first listing
whose `full_package_id` matches, then `break`. -/
def remove_from_marketplace (package_id : String) :
    List (String × MarketplaceListing) → List (String × MarketplaceListing)
  | [] => []
  | e :: rest =>
      if e.2.full_package_id = package_id then rest
      else e :: remove_from_marketplace package_id rest

/-- HTTP-level failures raised by `process_purchase`. -/
inductive HttpError where
  | notFound (detail : String)
  | serverError (detail : String)
deriving DecidableEq

/-- The dictionary returned by `process_purchase` on the non-raising paths
(lines 242-254). -/
structure PurchaseResult where
  purchase_successful : Bool
  error : Option String
  payment_intent_id : Option String
  exclusive_until : Option ℕ
deriving DecidableEq

/-- `process_purchase` (lines 220-254).  The Stripe call is external; its
outcome is the parameters `paymentStatus` (the `PaymentIntent.status`) and
`paymentIntentId`.  `stripeKeySet` models `bool(stripe.api_key)`.  Raised
`HTTPException`s become `Except.error`; a declined payment is a normal
return value.  On success the metrics are bumped and the first matching
listing is removed; `lead_packages` and `investors` are not touched. -/
def process_purchase (st : EveState) (stripeKeySet : Bool)
    (investor_id package_id : String) (paymentStatus paymentIntentId : String) :
    Except HttpError (PurchaseResult × EveState) :=
  match dlookup package_id st.lead_packages with
  | none => .error (.notFound "Package not found")
  | some package =>
    match dlookup investor_id st.investors with
    | none => .error (.notFound "Investor not found")
    | some _ =>
      if !stripeKeySet then .error (.serverError "Stripe key missing")
      else if paymentStatus ≠ "succeeded" then
        .ok ({ purchase_successful := false
               error := some "Payment failed"
               payment_intent_id := none
               exclusive_until := none }, st)
      else
        .ok ({ purchase_successful := true
               error := none
               payment_intent_id := some paymentIntentId
               exclusive_until := some package.expires_at },
          { st with
            total_sales := st.total_sales + package.price
            packages_sold := st.packages_sold + 1
            marketplace_listings :=
              remove_from_marketplace package_id st.marketplace_listings })

/-! ### Scraper endpoint (`POST /scrape-properties`, lines 327-361) -/

/-- The photo URLs for which `analyze_property_photos` (lines 198-203)
attempts a fetch: none when the list is empty (early return), otherwise the
slice `photo_urls[:3]`. -/
def photo_urls_fetched (photo_urls : List String) : List String :=
  if photo_urls.isEmpty then [] else photo_urls.take 3

/-- One iteration of the analysis loop of `scrape_properties`
(lines 331-349), with the visual-analysis result of the external photo
fetch supplied by the oracle `visual_of`. -/
def analyze_one (visual_of : ZillowProperty → VisualAnalysis)
    (prop : ZillowProperty) : PropertyIntelligence :=
  let visual := visual_of prop
  let distress := detect_distress_signals prop visual
  let investment := generate_investment_analysis prop distress
  { property := prop
    distress_signals := distress
    geometric_analysis := visual
    roi_percentage := some investment.roi_percentage
    contract_recommendation :=
      if distress.overall_score > 70 then "IMMEDIATE_OFFER" else "WATCH_LIST" }

/-- Response of `POST /scrape-properties` (fields read by the claims). -/
structure ScrapeResponse where
  total_properties_found : ℕ
  analyzed_properties : ℕ
  high_priority_leads : ℕ
  properties : List PropertyIntelligence

/-- `scrape_properties` (lines 327-361), given the property list produced
by the external GPT scrape: only `properties[:10]` are analyzed; the
analyzed list is sorted by distress score descending (Python's stable
`sort` with `reverse=True`). -/
def scrape_properties (properties : List ZillowProperty)
    (visual_of : ZillowProperty → VisualAnalysis) : ScrapeResponse :=
  let analyzed := (properties.take 10).map (analyze_one visual_of)
  let analyzed := analyzed.mergeSort
    (fun a b => decide (b.distress_signals.overall_score ≤ a.distress_signals.overall_score))
  { total_properties_found := properties.length
    analyzed_properties := analyzed.length
    high_priority_leads :=
      analyzed.countP (fun item => decide (item.distress_signals.overall_score > 70))
    properties := analyzed }

/-- `PropertyAnalysisRequest` (lines 83-90) with its declared defaults. -/
structure PropertyAnalysisRequest where
  location : String := "Austin, TX"
  max_price : ℤ := 500000
  min_price : ℤ := 50000
  property_type : String := "single_family"
  max_results : ℕ := 25
  include_photos : Bool := true
  enable_lattice_analysis : Bool := true

/-! ### Concrete sample inputs used by witnesses and counterexamples -/

/-- A minimal property: every optional field absent, every signal source
falsy. -/
def pA : ZillowProperty :=
  { zpid := "z0", address := "", price := 0, bedrooms := 0, bathrooms := 0
    sqft := 0, property_type := "", days_on_market := 0, price_history := []
    photos := [], description := "", neighborhood := "", zestimate := none }

/-- A property triggering every property-derived distress signal. -/
def pB : ZillowProperty :=
  { zpid := "z1", address := "1 Main St", price := 50, bedrooms := 3
    bathrooms := 2, sqft := 1200, property_type := "single_family"
    days_on_market := 61
    price_history := [[("date", "2024-01-05"), ("event", "Price Reduction")]]
    photos := ["u1"], description := "sold as-is", neighborhood := "Austin"
    zestimate := some 100 }

/-- A property whose only price-history entry mentions "reduction" in its
`event` field while carrying a `description` field free of it. -/
def p7 : ZillowProperty :=
  { pA with price_history :=
      [[("date", "2024-01-05"), ("event", "Price Reduction"),
        ("description", "new list price")]] }

/-- Visual analysis with both keys missing. -/
def vA : VisualAnalysis := { overall_visual_score := none, geometric_complexity := none }

/-- Visual analysis triggering both visual signals. -/
def vB : VisualAnalysis := { overall_visual_score := some 60, geometric_complexity := some 150 }

/-- An all-false distress record. -/
def dA : DistressSignal :=
  { price_below_market := false, high_days_on_market := false
    price_reduction := false, visual_distress := false
    neighborhood_decline := false, geometric_anomaly := false
    overall_score := 0 }

/-- Intelligence with distress 39 and ROI 50: rejected by the gate. -/
def intel39 : PropertyIntelligence :=
  { property := pA, distress_signals := { dA with overall_score := 39 }
    geometric_analysis := vA, roi_percentage := some 50
    contract_recommendation := "WATCH_LIST" }

/-- Intelligence with distress 40 and ROI 10: accepted at the boundary. -/
def intel40 : PropertyIntelligence :=
  { property := pA, distress_signals := { dA with overall_score := 40 }
    geometric_analysis := vA, roi_percentage := some 10
    contract_recommendation := "WATCH_LIST" }

/-- Intelligence satisfying the platinum branch condition while owning no
photos and no visual score. -/
def intel3 : PropertyIntelligence :=
  { property := pA, distress_signals := { dA with overall_score := 80 }
    geometric_analysis := vA, roi_percentage := some 30
    contract_recommendation := "IMMEDIATE_OFFER" }

/-- A concrete lead package for the purchase-flow witnesses. -/
def pkg5 : LeadPackage :=
  { package_id := "PKG_1", property_intelligence := intel40
    lead_tier := .bronze, price := 50, geometric_analysis_included := false
    contract_template_included := false, market_comps_included := false
    roi_projection := some 10, exclusive_period_hours := 12
    created_at := 0, expires_at := 604800 }

/-- A concrete investor for the purchase-flow witnesses. -/
def inv5 : InvestorProfile :=
  { investor_id := "inv1", preferred_markets := ["austin"]
    price_range_min := 0, price_range_max := 1000000
    property_types := ["single_family"] }

/-- A marketplace state holding one investor, one package and its one
listing. -/
def st5 : EveState :=
  { initState with
    investors := [("inv1", inv5)]
    lead_packages := [("PKG_1", pkg5)]
    marketplace_listings := [("LIST_PKG_1", create_marketplace_listing pkg5)] }

/-- Reachable states of a `SecondaryMarketEve` instance: the freshly
constructed state closed under the three state-changing operations
(investor registration, overflow-lead processing, purchase). -/
inductive Reachable : EveState → Prop where
  | init : Reachable initState
  | register (st : EveState) (investor : InvestorProfile) :
      Reachable st → Reachable (register_investor st investor)
  | overflow (st : EveState) (intel : PropertyIntelligence) (now : ℕ) :
      Reachable st → Reachable (process_overflow_lead st intel now).2
  | purchase (st : EveState) (key : Bool) (iid pid status piid : String)
      (res : PurchaseResult) (st' : EveState) :
      Reachable st →
      process_purchase st key iid pid status piid = Except.ok (res, st') →
      Reachable st'

/-- Number of active marketplace listings referring to a given package id. -/
def active_listings (st : EveState) (pid : String) : ℕ :=
  st.marketplace_listings.countP (fun e => decide (e.2.full_package_id = pid))

/-- Well-formedness of the listings dictionary: every entry's key is
`"LIST_" ++` its `full_package_id`, and keys are pairwise distinct. -/
def listings_wf (st : EveState) : Prop :=
  (∀ e ∈ st.marketplace_listings, e.1 = "LIST_" ++ e.2.full_package_id) ∧
  st.marketplace_listings.Pairwise (fun a b => a.1 ≠ b.1)

/-! ### Theorems -/

/-- C1: `detect_distress_signals` returns
`overall_score = 100 * (number of true signals among the six booleans) / 6`;
the score is 0 when all six booleans are false and 100 when all six are
true.  The function is total (it is a Lean `def`), so in particular no
input — including one with zestimate, price history or visual score
absent — makes it fail. -/
theorem C1_overall_score_formula (p : ZillowProperty) (v : VisualAnalysis) :
    (detect_distress_signals p v).overall_score =
      100 * (([price_below_market p, high_days_on_market p, price_reduction p,
          visual_distress v, neighborhood_decline p, geometric_anomaly v].countP
          (fun b => b = true) : ℚ)) / 6 ∧
    (price_below_market p = false → high_days_on_market p = false →
      price_reduction p = false → visual_distress v = false →
      neighborhood_decline p = false → geometric_anomaly v = false →
      (detect_distress_signals p v).overall_score = 0) ∧
    (price_below_market p = true → high_days_on_market p = true →
      price_reduction p = true → visual_distress v = true →
      neighborhood_decline p = true → geometric_anomaly v = true →
      (detect_distress_signals p v).overall_score = 100) := by
  refine ⟨?_, ?_, ?_⟩
  · simp only [detect_distress_signals, List.length_cons, List.length_nil]
    norm_num
    ring
  · intro h1 h2 h3 h4 h5 h6
    simp [detect_distress_signals, h1, h2, h3, h4, h5, h6]
  · intro h1 h2 h3 h4 h5 h6
    simp only [detect_distress_signals, h1, h2, h3, h4, h5, h6]
    norm_num

/-- Witness for C1: a concrete input with all six signals false scores 0,
and one with all six true scores 100. -/
theorem C1_overall_score_formula_witness :
    (detect_distress_signals pA vA).overall_score = 0 ∧
    (detect_distress_signals pB vB).overall_score = 100 := by
  constructor
  · exact (C1_overall_score_formula pA vA).2.1 (by decide) (by decide) (by decide)
      (by decide) (by decide) (by decide)
  · exact (C1_overall_score_formula pB vB).2.2 (by norm_num [price_below_market, pB])
      (by decide) (by decide) (by decide) (by decide) (by decide)

/-- C4: `generate_investment_analysis` returns
`roi_percentage = 100 * (market_value - total_investment) / total_investment`
when `total_investment = price + estimated_repairs` is nonzero, and exactly
0 when it is zero — in particular when `price = zestimate = 0` (zestimate
zero or absent).  The guarded division never executes with a zero divisor,
and the function is a total Lean `def`, so it never fails. -/
theorem C4_roi_guard (p : ZillowProperty) (d : DistressSignal) :
    ((p.price : ℚ) + (generate_investment_analysis p d).estimated_repairs ≠ 0 →
      (generate_investment_analysis p d).roi_percentage =
        100 * ((generate_investment_analysis p d).market_value -
            ((p.price : ℚ) + (generate_investment_analysis p d).estimated_repairs)) /
          ((p.price : ℚ) + (generate_investment_analysis p d).estimated_repairs)) ∧
    ((p.price : ℚ) + (generate_investment_analysis p d).estimated_repairs = 0 →
      (generate_investment_analysis p d).roi_percentage = 0) ∧
    (p.price = 0 → p.zestimate = none ∨ p.zestimate = some 0 →
      (generate_investment_analysis p d).roi_percentage = 0) := by
  have hrep : (generate_investment_analysis p d).estimated_repairs =
      (if d.visual_distress then market_value p * (15/100) else 0) := rfl
  have hmv : (generate_investment_analysis p d).market_value = market_value p := rfl
  have hroi : (generate_investment_analysis p d).roi_percentage =
      (if ((p.price : ℚ) + (if d.visual_distress then market_value p * (15/100) else 0)) ≠ 0
       then ((market_value p -
          ((p.price : ℚ) + (if d.visual_distress then market_value p * (15/100) else 0))) /
          ((p.price : ℚ) + (if d.visual_distress then market_value p * (15/100) else 0))) * 100
       else 0) := rfl
  rw [hrep, hmv, hroi]
  refine ⟨?_, ?_, ?_⟩
  · intro h
    rw [if_pos h]
    ring
  · intro h
    rw [if_neg (by simpa using h)]
  · intro hp hz
    have hmv0 : market_value p = 0 := by
      rcases hz with hz | hz <;> simp [market_value, hz, hp]
    rw [hmv0, hp]
    cases hvd : d.visual_distress <;> norm_num

/-- Witness for C4: on a property with price 0 and no zestimate the ROI is
exactly 0. -/
theorem C4_roi_guard_witness :
    (generate_investment_analysis pA dA).roi_percentage = 0 :=
  (C4_roi_guard pA dA).2.2 rfl (Or.inl rfl)

/-- C10: a zestimate equal to 0 is falsy in Python, hence treated as
absent: `price_below_market` is false whatever the price, and
`market_value` falls back to the listing price. -/
theorem C10_zero_zestimate (p : ZillowProperty) (v : VisualAnalysis)
    (d : DistressSignal) (h : p.zestimate = some 0) :
    (detect_distress_signals p v).price_below_market = false ∧
    (generate_investment_analysis p d).market_value = (p.price : ℚ) := by
  constructor
  · show price_below_market p = false
    simp [price_below_market, h]
  · show market_value p = (p.price : ℚ)
    simp [market_value, h]

/-- Witness for C10, at a property whose zestimate is literally `0`. -/
theorem C10_zero_zestimate_witness :
    (detect_distress_signals { pA with zestimate := some 0 } vA).price_below_market = false ∧
    (generate_investment_analysis { pA with zestimate := some 0 } dA).market_value =
      (({ pA with zestimate := some 0 } : ZillowProperty).price : ℚ) :=
  C10_zero_zestimate _ vA dA rfl

/-- Counterexample to C7 as stated: the code tests `"reduction" in
str(change).lower()` over the *whole* rendered entry, not its
`description` field.  For `p7`, whose single entry has the word only in
its `event` field (its `description` field is "new list price"), the code
reports a price reduction while the claimed description-based predicate
does not. -/
theorem C7_price_reduction_counterexample :
    (detect_distress_signals p7 vA).price_reduction = true ∧
    spec_price_reduction p7 = false := by
  constructor
  · decide
  · decide

/-- C7 amended: `price_reduction` is true iff the Python string rendering
of some price-history entry (keys and all values, not only the
`description` field) contains `"reduction"` case-insensitively. -/
theorem C7_price_reduction_amended (p : ZillowProperty) (v : VisualAnalysis) :
    (detect_distress_signals p v).price_reduction = true ↔
      ∃ e ∈ p.price_history, strContainsCI (pyStrEntry e) "reduction" = true := by
  show price_reduction p = true ↔ _
  simp [price_reduction, List.any_eq_true]

/-- C2: `process_overflow_lead` creates and returns a package iff
`overall_score ≥ 40` and `roi_percentage ≥ 10` (both inclusive); a lead
failing the gate yields a normal endpoint response with
`package_created = false` and a reason string, not an error. -/
theorem C2_gate (st : EveState) (intel : PropertyIntelligence) (now : ℕ) :
    ((process_overflow_lead st intel now).1.isSome = true ↔
      (intel.distress_signals.overall_score ≥ 40 ∧
        intel.roi_percentage.getD 0 ≥ 10)) ∧
    ((process_overflow_lead_endpoint st intel now).1.package_created =
      (process_overflow_lead st intel now).1.isSome) ∧
    ((process_overflow_lead_endpoint st intel now).1.package_created = false →
      (process_overflow_lead_endpoint st intel now).1.reason =
        some "Lead quality below threshold") := by
  refine ⟨?_, ?_, ?_⟩
  · by_cases h : intel.distress_signals.overall_score < 40 ∨
        intel.roi_percentage.getD 0 < 10
    · simp only [process_overflow_lead]
      rw [if_pos h]
      simp only [Option.isSome_none, Bool.false_eq_true, false_iff, not_and]
      intro h1 h2
      rcases h with h | h
      · exact absurd h1 (not_le.mpr h)
      · exact absurd h2 (not_le.mpr h)
    · simp only [process_overflow_lead]
      rw [if_neg h]
      simp only [Option.isSome_some, true_iff]
      push_neg at h
      exact h
  · cases hpe : process_overflow_lead st intel now with
    | mk opt st2 =>
      cases opt <;> simp [process_overflow_lead_endpoint, hpe]
  · cases hpe : process_overflow_lead st intel now with
    | mk opt st2 =>
      cases opt <;> simp [process_overflow_lead_endpoint, hpe]

/-- Witness for C2: distress 39 with ROI 50 is rejected (no package, a
reason string); distress 40 with ROI 10 produces a package (boundary
inclusive). -/
theorem C2_gate_witness :
    (process_overflow_lead initState intel39 0).1.isSome = false ∧
    (process_overflow_lead_endpoint initState intel39 0).1.reason =
      some "Lead quality below threshold" ∧
    (process_overflow_lead initState intel40 0).1.isSome = true := by
  have h39 := C2_gate initState intel39 0
  have h40 := C2_gate initState intel40 0
  have hno : (process_overflow_lead initState intel39 0).1.isSome = false := by
    rcases hs : (process_overflow_lead initState intel39 0).1.isSome with _ | _
    · rfl
    · have := h39.1.mp hs
      exact absurd this.1 (by decide)
  refine ⟨hno, ?_, ?_⟩
  · exact h39.2.2 (by rw [h39.2.1, hno])
  · exact h40.1.mpr ⟨by decide, by decide⟩

/-- Counterexample to C3 as stated: `intel3` satisfies the platinum branch
condition yet has no photos and no visual score, so neither the gold rule
(`geom_score > 0`) nor the silver rule (`has_photos`) holds — the platinum
condition does not entail the lower rules for arbitrary inputs. -/
theorem C3_tier_counterexample :
    platinum_rule intel3 = true ∧ gold_rule intel3 = false ∧
    silver_rule intel3 = false ∧ classify_lead_tier intel3 = .platinum := by
  refine ⟨by decide, by decide, by decide, ?_⟩
  simp [classify_lead_tier, show platinum_rule intel3 = true from by decide]

/-- C3 amended: an input satisfying the platinum rule always classifies as
PLATINUM (the branch is checked first, so first match wins), and the
distress/ROI threshold parts of the gold and silver rules are implied
(70 > 60 > 50 and 20 > 15 > 12); but the remaining gold condition
(visual score > 0) and silver condition (at least one photo) are not
implied for arbitrary inputs. -/
theorem C3_platinum_first_match (intel : PropertyIntelligence)
    (h : platinum_rule intel = true) :
    classify_lead_tier intel = .platinum ∧
    (intel.distress_signals.overall_score > 60 ∧ intel.roi_percentage.getD 0 > 15) ∧
    (intel.distress_signals.overall_score > 50 ∧ intel.roi_percentage.getD 0 > 12) := by
  have h' := h
  simp only [platinum_rule, Bool.and_eq_true, decide_eq_true_eq] at h'
  obtain ⟨⟨h70, h20⟩, _⟩ := h'
  refine ⟨by simp [classify_lead_tier, h], ⟨?_, ?_⟩, ⟨?_, ?_⟩⟩
  · exact lt_trans (by norm_num) h70
  · exact lt_trans (by norm_num) h20
  · exact lt_trans (by norm_num) h70
  · exact lt_trans (by norm_num) h20

/-- Witness for C3 amended: `intel3` satisfies the platinum rule and is
classified PLATINUM with the implied thresholds. -/
theorem C3_platinum_first_match_witness :
    classify_lead_tier intel3 = .platinum ∧
    (intel3.distress_signals.overall_score > 60 ∧ intel3.roi_percentage.getD 0 > 15) ∧
    (intel3.distress_signals.overall_score > 50 ∧ intel3.roi_percentage.getD 0 > 12) :=
  C3_platinum_first_match intel3 (by decide)

/-- When at most one listing refers to a package, deleting the first match
(and stopping, as `_remove_from_marketplace` does) is the same as filtering
out every match. -/
theorem remove_from_marketplace_eq_filter {l : List (String × MarketplaceListing)}
    {pid : String}
    (h : l.countP (fun e => decide (e.2.full_package_id = pid)) ≤ 1) :
    remove_from_marketplace pid l =
      l.filter (fun e => !decide (e.2.full_package_id = pid)) := by
  induction l with
  | nil => rfl
  | cons e rest ih =>
    rw [List.countP_cons] at h
    by_cases he : e.2.full_package_id = pid
    · simp [he] at h
      have hrest : rest.countP (fun x => decide (x.2.full_package_id = pid)) = 0 := by
        rw [List.countP_eq_zero]
        intro a ha
        simpa using h a.1 a.2 ha
      have hall : rest.filter (fun x => !decide (x.2.full_package_id = pid)) = rest := by
        rw [List.filter_eq_self]
        intro a ha
        have := List.countP_eq_zero.mp hrest a ha
        simpa using this
      simp [remove_from_marketplace, he, hall]
    · simp [he] at h
      have : rest.countP (fun x => decide (x.2.full_package_id = pid)) ≤ 1 := by omega
      simp [remove_from_marketplace, he, ih this]

/-- C5: a successful purchase (payment status "succeeded") of an existing
package by an existing investor removes exactly the listings referring to
the package — under the marketplace invariant there is at most one — and
leaves every other listing in place and unchanged, adds exactly the package
price to `total_sales`, increments `packages_sold` by exactly 1, and leaves
`lead_packages`, `investors` and the remaining metrics untouched (the
record update names only the three changed fields). -/
theorem C5_purchase_effects (st : EveState) (investor_id package_id piid : String)
    (pkg : LeadPackage) (inv : InvestorProfile)
    (hpkg : dlookup package_id st.lead_packages = some pkg)
    (hinv : dlookup investor_id st.investors = some inv)
    (huniq : st.marketplace_listings.countP
        (fun e => decide (e.2.full_package_id = package_id)) ≤ 1) :
    process_purchase st true investor_id package_id "succeeded" piid =
      Except.ok
        ({ purchase_successful := true, error := none,
           payment_intent_id := some piid,
           exclusive_until := some pkg.expires_at },
         { st with
           total_sales := st.total_sales + pkg.price
           packages_sold := st.packages_sold + 1
           marketplace_listings := st.marketplace_listings.filter
             (fun e => !decide (e.2.full_package_id = package_id)) }) := by
  simp [process_purchase, hpkg, hinv, remove_from_marketplace_eq_filter huniq]

/-- Witness for C5: in the one-package one-listing state `st5`, purchasing
`PKG_1` empties the marketplace and bumps the metrics. -/
theorem C5_purchase_effects_witness :
    process_purchase st5 true "inv1" "PKG_1" "succeeded" "pi_1" =
      Except.ok
        ({ purchase_successful := true, error := none,
           payment_intent_id := some "pi_1",
           exclusive_until := some pkg5.expires_at },
         { st5 with
           total_sales := st5.total_sales + pkg5.price
           packages_sold := st5.packages_sold + 1
           marketplace_listings := st5.marketplace_listings.filter
             (fun e => !decide (e.2.full_package_id = "PKG_1")) }) :=
  C5_purchase_effects st5 "inv1" "PKG_1" "pi_1" pkg5 inv5 rfl rfl (by decide)

/-- C6: when the external payment capture reports any status other than
"succeeded", `process_purchase` returns a structured failure
(`purchase_successful = false` with an error string) and the state it
returns is exactly the state it was given — no listing, package, investor
or metric changes. -/
theorem C6_payment_failure (st : EveState) (investor_id package_id : String)
    (status piid : String) (pkg : LeadPackage) (inv : InvestorProfile)
    (hpkg : dlookup package_id st.lead_packages = some pkg)
    (hinv : dlookup investor_id st.investors = some inv)
    (hstatus : status ≠ "succeeded") :
    process_purchase st true investor_id package_id status piid =
      Except.ok
        ({ purchase_successful := false, error := some "Payment failed",
           payment_intent_id := none, exclusive_until := none }, st) := by
  simp [process_purchase, hpkg, hinv, hstatus]

/-- Witness for C6: a declined payment in `st5` fails softly and returns
`st5` itself. -/
theorem C6_payment_failure_witness :
    process_purchase st5 true "inv1" "PKG_1" "requires_payment_method" "pi_1" =
      Except.ok
        ({ purchase_successful := false, error := some "Payment failed",
           payment_intent_id := none, exclusive_until := none }, st5) :=
  C6_payment_failure st5 "inv1" "PKG_1" "requires_payment_method" "pi_1" pkg5 inv5
    rfl rfl (by decide)

/-- Membership after a Python-style dict insert: the new pair or an old
member. -/
theorem dinsert_mem {α : Type} {k : String} {v : α} {l : List (String × α)}
    {e : String × α} (h : e ∈ dinsert k v l) : e = (k, v) ∨ e ∈ l := by
  unfold dinsert at h
  split at h
  · rcases List.mem_map.mp h with ⟨a, ha, hae⟩
    by_cases hk : a.1 = k
    · left
      rw [← hae]
      simp [hk]
    · right
      rw [← hae]
      simpa [hk] using ha
  · rcases List.mem_append.mp h with h | h
    · right; exact h
    · left; simpa using h

/-- A Python-style dict insert keeps the keys pairwise distinct. -/
theorem dinsert_pairwise {α : Type} (k : String) (v : α) (l : List (String × α))
    (h : l.Pairwise (fun a b => a.1 ≠ b.1)) :
    (dinsert k v l).Pairwise (fun a b => a.1 ≠ b.1) := by
  unfold dinsert
  split
  · refine List.pairwise_map.mpr (h.imp ?_)
    intro a b hab
    have ha : (if a.1 = k then (k, v) else a).1 = a.1 := by
      split
      · simp [*]
      · rfl
    have hb : (if b.1 = k then (k, v) else b).1 = b.1 := by
      split
      · simp [*]
      · rfl
    rw [ha, hb]
    exact hab
  · rename_i hnone
    rw [List.pairwise_append]
    refine ⟨h, List.pairwise_singleton _ _, ?_⟩
    intro a ha b hb
    have hb1 : b = (k, v) := by simpa using hb
    have : ¬ (a.1 = k) := by
      intro hak
      exact hnone (List.any_eq_true.mpr ⟨a, ha, by simpa using hak⟩)
    rw [hb1]
    exact this

/-- `_remove_from_marketplace` only deletes; the result is a sublist. -/
theorem remove_from_marketplace_sublist (pid : String)
    (l : List (String × MarketplaceListing)) :
    List.Sublist (remove_from_marketplace pid l) l := by
  induction l with
  | nil => exact List.Sublist.refl _
  | cons e rest ih =>
    simp only [remove_from_marketplace]
    split
    · exact (List.Sublist.refl rest).cons e
    · exact ih.cons₂ e

/-- In a listings dictionary whose keys are pairwise distinct and
determined by the referenced package id, at most one entry can refer to a
given package. -/
theorem countP_matching_le_one {l : List (String × MarketplaceListing)} {pid : String}
    (hk : ∀ e ∈ l, e.1 = "LIST_" ++ e.2.full_package_id)
    (hp : l.Pairwise (fun a b => a.1 ≠ b.1)) :
    l.countP (fun e => decide (e.2.full_package_id = pid)) ≤ 1 := by
  induction l with
  | nil => simp
  | cons e rest ih =>
    rw [List.countP_cons]
    rcases List.pairwise_cons.mp hp with ⟨hne, hp'⟩
    by_cases he : e.2.full_package_id = pid
    · have hzero : rest.countP (fun x => decide (x.2.full_package_id = pid)) = 0 := by
        rw [List.countP_eq_zero]
        intro a ha hmatch
        have ha2 : a.2.full_package_id = pid := by simpa using hmatch
        have hkeya : a.1 = "LIST_" ++ pid := by
          rw [hk a (List.mem_cons_of_mem e ha), ha2]
        have hkeye : e.1 = "LIST_" ++ pid := by
          rw [hk e (List.mem_cons_self e rest), he]
        exact (hne a ha) (hkeye.trans hkeya.symm)
      simp [he, hzero]
    · have htail := ih (fun x hx => hk x (List.mem_cons_of_mem e hx)) hp'
      simpa [he] using htail

/-- Inversion of a non-raising `process_purchase` call: either the payment
failed and the state is returned untouched, or it succeeded and exactly
the metrics were bumped and the first matching listing removed, with the
`investors` and `lead_packages` dictionaries untouched. -/
theorem process_purchase_ok_inv {st : EveState} {key : Bool}
    {iid pid status piid : String} {res : PurchaseResult} {st' : EveState}
    (heq : process_purchase st key iid pid status piid = Except.ok (res, st')) :
    (st' = st ∧ res.purchase_successful = false) ∨
    (res.purchase_successful = true ∧
      st'.marketplace_listings = remove_from_marketplace pid st.marketplace_listings ∧
      st'.investors = st.investors ∧
      st'.lead_packages = st.lead_packages) := by
  unfold process_purchase at heq
  split at heq
  · simp at heq
  · split at heq
    · simp at heq
    · split at heq
      · simp at heq
      · split at heq
        · rw [Except.ok.injEq, Prod.mk.injEq] at heq
          left
          exact ⟨heq.2.symm, by rw [← heq.1]⟩
        · rw [Except.ok.injEq, Prod.mk.injEq] at heq
          right
          refine ⟨by rw [← heq.1], ?_, ?_, ?_⟩ <;> rw [← heq.2]

/-- Every reachable state of the marketplace is well formed: listing keys
are pairwise distinct and each equals `"LIST_" ++` the referenced package
id. -/
theorem reachable_listings_wf (st : EveState) (h : Reachable st) :
    listings_wf st := by
  induction h with
  | init => exact ⟨by simp [initState], by simp [initState]⟩
  | register st investor hr ih => exact ih
  | overflow st intel now hr ih =>
    simp only [process_overflow_lead]
    split
    · exact ih
    · refine ⟨?_, ?_⟩
      · intro e he
        rcases dinsert_mem he with he | he
        · rw [he]
          rfl
        · exact ih.1 e he
      · exact dinsert_pairwise _ _ _ ih.2
  | purchase st key iid pid status piid res st' hr heq ih =>
    rcases process_purchase_ok_inv heq with ⟨hst, _⟩ | ⟨_, hml, _, _⟩
    · rw [hst]; exact ih
    · refine ⟨?_, ?_⟩
      · intro e he
        rw [hml] at he
        exact ih.1 e ((remove_from_marketplace_sublist pid _).subset he)
      · rw [listings_wf] at ih
        have := ih.2.sublist (remove_from_marketplace_sublist pid st.marketplace_listings)
        rw [hml]
        exact this

/-- C8: in every state reachable by any sequence of the three operations
(register investor, process overflow lead, purchase), each package id is
referred to by at most one active marketplace listing; and immediately
after a successful purchase of a package, no listing refers to it at
all. -/
theorem C8_listing_invariant (st : EveState) (h : Reachable st) :
    (∀ pid, active_listings st pid ≤ 1) ∧
    (∀ (key : Bool) (iid pid status piid : String) (res : PurchaseResult)
        (st' : EveState),
      process_purchase st key iid pid status piid = Except.ok (res, st') →
      res.purchase_successful = true → active_listings st' pid = 0) := by
  have hwf := reachable_listings_wf st h
  constructor
  · intro pid
    exact countP_matching_le_one hwf.1 hwf.2
  · intro key iid pid status piid res st' heq hsucc
    rcases process_purchase_ok_inv heq with ⟨_, hfail⟩ | ⟨_, hml, _, _⟩
    · rw [hsucc] at hfail
      exact absurd hfail (by simp)
    · have hle : st.marketplace_listings.countP
          (fun e => decide (e.2.full_package_id = pid)) ≤ 1 :=
        countP_matching_le_one hwf.1 hwf.2
      rw [active_listings, hml, remove_from_marketplace_eq_filter hle,
        List.countP_filter]
      simp

/-- Witness for C8: the state reached by accepting one overflow lead has
at most one listing for the freshly created package. -/
theorem C8_listing_invariant_witness :
    active_listings (process_overflow_lead initState intel40 0).2 "PKG_z0_0" ≤ 1 :=
  (C8_listing_invariant _
    (Reachable.overflow initState intel40 0 Reachable.init)).1 "PKG_z0_0"

/-- C9: the `/scrape-properties` endpoint analyzes and returns at most the
first 10 scraped properties even when the scrape yields more (so
`analyzed_properties` can be below `total_properties_found`, while
`max_results` defaults to 25), and at most the first 3 photo URLs of a
property are fetched for visual analysis. -/
theorem C9_truncation (properties : List ZillowProperty)
    (visual_of : ZillowProperty → VisualAnalysis) (urls : List String) :
    (scrape_properties properties visual_of).analyzed_properties =
      min 10 properties.length ∧
    (scrape_properties properties visual_of).analyzed_properties ≤ 10 ∧
    (scrape_properties properties visual_of).total_properties_found =
      properties.length ∧
    (10 < properties.length →
      (scrape_properties properties visual_of).analyzed_properties <
        (scrape_properties properties visual_of).total_properties_found) ∧
    ({} : PropertyAnalysisRequest).max_results = 25 ∧
    photo_urls_fetched urls = urls.take 3 ∧
    (photo_urls_fetched urls).length ≤ 3 := by
  have hlen : (scrape_properties properties visual_of).analyzed_properties =
      min 10 properties.length := by
    simp only [scrape_properties]
    rw [List.length_mergeSort, List.length_map, List.length_take]
  have hfetched : photo_urls_fetched urls = urls.take 3 := by
    rw [photo_urls_fetched]
    split
    · rename_i hnil
      rw [List.isEmpty_iff.mp hnil]
      rfl
    · rfl
  refine ⟨hlen, ?_, rfl, ?_, rfl, hfetched, ?_⟩
  · rw [hlen]; exact min_le_left ..
  · intro hgt
    rw [hlen]
    show min 10 properties.length < properties.length
    omega
  · rw [hfetched]
    simp

/-- Witness for C9: with 11 scraped properties only 10 are analyzed, and a
4-element photo list is cut to its first 3 URLs. -/
theorem C9_truncation_witness :
    (scrape_properties (List.replicate 11 pA) (fun _ => vA)).analyzed_properties <
      (scrape_properties (List.replicate 11 pA) (fun _ => vA)).total_properties_found ∧
    photo_urls_fetched ["a", "b", "c", "d"] = ["a", "b", "c", "d"].take 3 :=
  ⟨(C9_truncation (List.replicate 11 pA) (fun _ => vA) []).2.2.2.1 (by simp),
   (C9_truncation [] (fun _ => vA) ["a", "b", "c", "d"]).2.2.2.2.2.1⟩

end ContractAI
